import Mathlib

/-!
Shallow embedding of `services/surfaceflinger/Scheduler/LayerInfoV2.cpp`
(android_frameworks_native): the per-layer frame-cadence estimator used by
the refresh-rate scheduler.

Modelling conventions:
* `nsecs_t` (signed 64-bit nanoseconds) is modelled as `Int`.  No 64-bit
  wrap-around is modelled: every property below is about control flow and
  order relations on time values.
* `float` quantities (`averageFrameTime`, refresh rates, the 1 Hz margin)
  are modelled as `ℚ` with exact arithmetic.
* Container accesses that are undefined behaviour in C++ when out of bounds
  (`std::deque::front`/`back` on an empty deque, dereferencing `end()`)
  are modelled with `Option`: a `none` result of an operation marks a state
  in which the C++ code performs an out-of-bounds access.
* The declarations of `LayerInfoV2.h` (configuration constants, the vote
  enum, the `FrameTimeData` struct, the member fields) are not among the
  sources; they are modelled from the spec, with shapes matching their use
  in the `.cpp`.
-/

/-- Modelled from the spec: the vote kind enum `LayerHistory::LayerVoteType`,
declared in the missing header.  The `.cpp` uses `Heuristic`, `Min` and
`Max`; `ExplicitOther` stands for the remaining explicit override kinds the
spec mentions. -/
inductive LayerVoteType where
  | Heuristic
  | Min
  | Max
  | ExplicitOther
  deriving DecidableEq, Repr

/-- Modelled from the spec: the configuration constants declared in the
missing header (`HISTORY_SIZE`, `FREQUENT_LAYER_WINDOW_SIZE`,
`MAX_FREQUENT_LAYER_PERIOD_NS`, `HISTORY_TIME`); the spec calls them
`HISTORY_CAPACITY`, `FREQUENT_WINDOW`, `MAX_FREQUENT_PERIOD` and
`HISTORY_TIME_WINDOW`.  Kept as a record so every theorem quantifies over
the configuration. -/
structure Config where
  HISTORY_SIZE : Nat
  FREQUENT_LAYER_WINDOW_SIZE : Nat
  MAX_FREQUENT_LAYER_PERIOD_NS : Int
  HISTORY_TIME : Int
  deriving DecidableEq, Repr

/-- Modelled from the spec: `FrameTimeData` (the spec calls it FrameSample),
declared in the missing header; the field names follow their use in the
`.cpp` (`presetTime` sic, `queueTime`). -/
structure FrameTimeData where
  presetTime : Int
  queueTime : Int
  deriving DecidableEq, Repr

/-- Modelled from the spec: the stored vote `{type, fps}` (member
`mLayerVote`), a kind discriminator plus a rate payload. -/
structure LayerVote where
  type : LayerVoteType
  fps : ℚ
  deriving DecidableEq, Repr

/-- Modelled from the spec: the mutable member state of a `LayerInfoV2`
instance, with the fields the `.cpp` reads and writes
(`mHighRefreshRatePeriod`, `mDefaultVote`, `mLayerVote`, `mLastUpdatedTime`,
`mFrameTimes`, `mLastReportedRefreshRate`).  `mFrameTimes` is the
`std::deque` History, oldest first. -/
structure LayerInfoV2 where
  mHighRefreshRatePeriod : Int
  mDefaultVote : LayerVoteType
  mLayerVote : LayerVote
  mLastUpdatedTime : Int
  mFrameTimes : List FrameTimeData
  mLastReportedRefreshRate : ℚ
  deriving DecidableEq, Repr

/-- The constructor `LayerInfoV2::LayerInfoV2` (lines 30-33): stores the
high-refresh-rate period and the default vote, and seeds the current vote
with `{defaultVote, 0.0f}`.  The containers start empty and
`mLastUpdatedTime` and `mLastReportedRefreshRate` start zero-initialized. -/
def LayerInfoV2.init (highRefreshRatePeriod : Int)
    (defaultVote : LayerVoteType) : LayerInfoV2 :=
  { mHighRefreshRatePeriod := highRefreshRatePeriod
    mDefaultVote := defaultVote
    mLayerVote := { type := defaultVote, fps := 0 }
    mLastUpdatedTime := 0
    mFrameTimes := []
    mLastReportedRefreshRate := 0 }

/-- The sample built by `LayerInfoV2::setLastPresentTime` from one event
`(lastPresentTime, now)`: the present time is clamped to `0` from below and
`queueTime` is `max(clamped present time, now)` (lines 36-40). -/
def mkFrameTime (lastPresentTime now : Int) : FrameTimeData :=
  { presetTime := max lastPresentTime 0
    queueTime := max (max lastPresentTime 0) now }

/-- `LayerInfoV2::setLastPresentTime` (lines 35-46): clamp the present time,
update `mLastUpdatedTime`, push the new sample at the back of `mFrameTimes`
and pop the front sample if the size now exceeds `HISTORY_SIZE`. -/
def setLastPresentTime (cfg : Config) (s : LayerInfoV2)
    (lastPresentTime now : Int) : LayerInfoV2 :=
  let lp := max lastPresentTime 0
  let updated := max lp now
  let pushed := s.mFrameTimes ++ [mkFrameTime lastPresentTime now]
  { s with
    mLastUpdatedTime := updated
    mFrameTimes := if cfg.HISTORY_SIZE < pushed.length then pushed.tail else pushed }

/-- `LayerInfoV2::isFrequent` (lines 57-68): with fewer than
`FREQUENT_LAYER_WINDOW_SIZE` samples the layer is assumed frequent;
otherwise the sample `FREQUENT_LAYER_WINDOW_SIZE` positions back from the
end must have `queueTime ≥ now - MAX_FREQUENT_LAYER_PERIOD_NS`.  The
iterator dereference `it->queueTime` is modelled with an `Option` lookup;
`none` marks the out-of-bounds dereference of `end()` that the C++ would
perform when the window size is zero. -/
def isFrequent (cfg : Config) (s : LayerInfoV2) (now : Int) : Option Bool :=
  if s.mFrameTimes.length < cfg.FREQUENT_LAYER_WINDOW_SIZE then
    some true
  else
    match s.mFrameTimes[s.mFrameTimes.length - cfg.FREQUENT_LAYER_WINDOW_SIZE]? with
    | some ft => some (decide (ft.queueTime ≥ now - cfg.MAX_FREQUENT_LAYER_PERIOD_NS))
    | none => none

/-- `LayerInfoV2::hasEnoughDataForHeuristic` (lines 70-78): return `false`
iff the history has fewer than `HISTORY_SIZE` samples and the span between
the newest and oldest `queueTime` is below `HISTORY_TIME`.  The calls
`mFrameTimes.back()` and `mFrameTimes.front()` in the second conjunct are
modelled with `Option` accessors; `none` marks the out-of-bounds access the
C++ performs on an empty deque (the `&&` short-circuits, so they are only
evaluated when the size test holds). -/
def hasEnoughDataForHeuristic (cfg : Config) (s : LayerInfoV2) : Option Bool :=
  if s.mFrameTimes.length < cfg.HISTORY_SIZE then
    match s.mFrameTimes.getLast?, s.mFrameTimes.head? with
    | some b, some f =>
      if b.queueTime - f.queueTime < cfg.HISTORY_TIME then some false else some true
    | _, _ => none
  else
    some true

/-- The per-adjacent-pair deltas of `calculateRefreshRateIfPossible`
(lines 90-98 and 105-107): for each consecutive pair of samples,
`max(next.presetTime - cur.presetTime, mHighRefreshRatePeriod)`. -/
def frameDeltas (highRefreshRatePeriod : Int) :
    List FrameTimeData → List Int
  | a :: b :: rest =>
    max (b.presetTime - a.presetTime) highRefreshRatePeriod ::
      frameDeltas highRefreshRatePeriod (b :: rest)
  | _ => []

/-- The sentinel test of the first loop of `calculateRefreshRateIfPossible`
(lines 91-94): some consecutive pair of samples has a `presetTime` equal to
the sentinel `0`. -/
def pairHasSentinel : List FrameTimeData → Bool
  | a :: b :: rest =>
    a.presetTime == 0 || b.presetTime == 0 || pairHasSentinel (b :: rest)
  | _ => false

/-- `averageFrameTime` of `calculateRefreshRateIfPossible` (lines 99-100):
the sum of the deltas divided by `mFrameTimes.size() - 1` (a `float`
division in the C++, exact division in `ℚ` here). -/
def averageFrameTime (s : LayerInfoV2) : ℚ :=
  (((frameDeltas s.mHighRefreshRatePeriod s.mFrameTimes).sum : Int) : ℚ) /
    ((s.mFrameTimes.length - 1 : Nat) : ℚ)

/-- The burst-rejection test of the second loop of
`calculateRefreshRateIfPossible` (lines 105-111): some delta deviates from
`averageFrameTime` by more than `2 * averageFrameTime`. -/
def burstRejected (s : LayerInfoV2) : Bool :=
  (frameDeltas s.mHighRefreshRatePeriod s.mFrameTimes).any fun d =>
    decide (|(d : ℚ) - averageFrameTime s| > 2 * averageFrameTime s)

/-- The candidate refresh rate of `calculateRefreshRateIfPossible`
(line 113): `1e9f / averageFrameTime`. -/
def candidateRate (s : LayerInfoV2) : ℚ :=
  1000000000 / averageFrameTime s

/-- `LayerInfoV2::calculateRefreshRateIfPossible` (lines 80-120).  Result
`none` marks undefined behaviour (an out-of-bounds access, or the float
`0.0 / 0` average a degenerate configuration lets through, which `ℚ` cannot
represent); `some (none, s)` is the `std::nullopt` return; `some (some r, s)`
returns rate `r`.  The returned state carries the only mutation: the
hysteresis update of `mLastReportedRefreshRate` with margin `MARGIN = 1.0f`
(lines 113-119).  The sentinel check is hoisted out of the summation loop:
the C++ returns `nullopt` as soon as a pair with `presetTime == 0` is seen,
so the net result is `nullopt` exactly when some pair has the sentinel. -/
def calculateRefreshRateIfPossible (cfg : Config) (s : LayerInfoV2) :
    Option (Option ℚ × LayerInfoV2) :=
  match hasEnoughDataForHeuristic cfg s with
  | none => none
  | some false => some (none, s)
  | some true =>
    if s.mFrameTimes.length < 2 then
      none
    else if pairHasSentinel s.mFrameTimes then
      some (none, s)
    else if burstRejected s then
      some (none, s)
    else if |candidateRate s - s.mLastReportedRefreshRate| > 1 then
      some (some (candidateRate s), { s with mLastReportedRefreshRate := candidateRate s })
    else
      some (some s.mLastReportedRefreshRate, s)

/-- `LayerInfoV2::getRefreshRate` (lines 122-137), the vote resolver: a
non-`Heuristic` stored vote is returned unchanged; an infrequent layer votes
`{Min, 0}`; otherwise the heuristic estimate votes `{Heuristic, rate}` when
available and `{Max, 0}` when not.  Result `none` marks a state in which a
callee performs an out-of-bounds access. -/
def getRefreshRate (cfg : Config) (s : LayerInfoV2) (now : Int) :
    Option ((LayerVoteType × ℚ) × LayerInfoV2) :=
  if s.mLayerVote.type ≠ LayerVoteType.Heuristic then
    some ((s.mLayerVote.type, s.mLayerVote.fps), s)
  else
    match isFrequent cfg s now with
    | none => none
    | some false => some ((LayerVoteType.Min, 0), s)
    | some true =>
      match calculateRefreshRateIfPossible cfg s with
      | none => none
      | some (some v, s1) => some ((LayerVoteType.Heuristic, v), s1)
      | some (none, s1) => some ((LayerVoteType.Max, 0), s1)

/-- Folding a sequence of `(lastPresentTime, now)` events into the state via
`setLastPresentTime`, oldest event first (the ingestion sequence of the
spec). -/
def runEvents (cfg : Config) (s : LayerInfoV2) (evs : List (Int × Int)) :
    LayerInfoV2 :=
  evs.foldl (fun t e => setLastPresentTime cfg t e.1 e.2) s

/-- A small configuration for concrete evaluations: capacity 2, frequency
window 3, frequency period 100 ns, time window 1 ns. -/
def cfgA : Config := ⟨2, 3, 100, 1⟩

/-- A configuration with capacity 5, used with the five-sample state. -/
def cfgC : Config := ⟨5, 3, 100, 1⟩

/-- A Heuristic-vote state holding two samples one nanosecond apart. -/
def sA : LayerInfoV2 :=
  { mHighRefreshRatePeriod := 1
    mDefaultVote := LayerVoteType.Heuristic
    mLayerVote := { type := LayerVoteType.Heuristic, fps := 0 }
    mLastUpdatedTime := 0
    mFrameTimes := [⟨10, 10⟩, ⟨11, 11⟩]
    mLastReportedRefreshRate := 0 }

/-- A state carrying an explicit (`Min`) vote with rate 5. -/
def sB : LayerInfoV2 :=
  { mHighRefreshRatePeriod := 1
    mDefaultVote := LayerVoteType.Min
    mLayerVote := { type := LayerVoteType.Min, fps := 5 }
    mLastUpdatedTime := 0
    mFrameTimes := []
    mLastReportedRefreshRate := 0 }

/-- A Heuristic-vote state whose first sample has the sentinel present
time `0`. -/
def sSent : LayerInfoV2 :=
  { mHighRefreshRatePeriod := 1
    mDefaultVote := LayerVoteType.Heuristic
    mLayerVote := { type := LayerVoteType.Heuristic, fps := 0 }
    mLastUpdatedTime := 0
    mFrameTimes := [⟨0, 10⟩, ⟨11, 11⟩]
    mLastReportedRefreshRate := 0 }

/-- A Heuristic-vote state with five samples whose deltas `[1, 1, 1, 20]`
form a burst (the `20` exceeds the average `23/4` by more than twice the
average). -/
def sC6 : LayerInfoV2 :=
  { mHighRefreshRatePeriod := 1
    mDefaultVote := LayerVoteType.Heuristic
    mLayerVote := { type := LayerVoteType.Heuristic, fps := 0 }
    mLastUpdatedTime := 0
    mFrameTimes := [⟨10, 10⟩, ⟨11, 11⟩, ⟨12, 12⟩, ⟨13, 13⟩, ⟨33, 33⟩]
    mLastReportedRefreshRate := 0 }

/-! ### Basic facts about the estimator -/

lemma hasEnoughData_congr (cfg : Config) (s t : LayerInfoV2)
    (h : s.mFrameTimes = t.mFrameTimes) :
    hasEnoughDataForHeuristic cfg s = hasEnoughDataForHeuristic cfg t := by
  simp [hasEnoughDataForHeuristic, h]

lemma averageFrameTime_congr (s t : LayerInfoV2)
    (h1 : s.mFrameTimes = t.mFrameTimes)
    (h2 : s.mHighRefreshRatePeriod = t.mHighRefreshRatePeriod) :
    averageFrameTime s = averageFrameTime t := by
  simp [averageFrameTime, h1, h2]

lemma candidateRate_congr (s t : LayerInfoV2)
    (h1 : s.mFrameTimes = t.mFrameTimes)
    (h2 : s.mHighRefreshRatePeriod = t.mHighRefreshRatePeriod) :
    candidateRate s = candidateRate t := by
  simp [candidateRate, averageFrameTime_congr s t h1 h2]

lemma burstRejected_congr (s t : LayerInfoV2)
    (h1 : s.mFrameTimes = t.mFrameTimes)
    (h2 : s.mHighRefreshRatePeriod = t.mHighRefreshRatePeriod) :
    burstRejected s = burstRejected t := by
  simp [burstRejected, h1, h2, averageFrameTime_congr s t h1 h2]

lemma calc_eq_of_data_none (cfg : Config) (s : LayerInfoV2)
    (h : hasEnoughDataForHeuristic cfg s = none) :
    calculateRefreshRateIfPossible cfg s = none := by
  unfold calculateRefreshRateIfPossible
  rw [h]

lemma calc_eq_of_data_false (cfg : Config) (s : LayerInfoV2)
    (h : hasEnoughDataForHeuristic cfg s = some false) :
    calculateRefreshRateIfPossible cfg s = some (none, s) := by
  unfold calculateRefreshRateIfPossible
  rw [h]

lemma calc_eq_of_data_true (cfg : Config) (s : LayerInfoV2)
    (h : hasEnoughDataForHeuristic cfg s = some true) :
    calculateRefreshRateIfPossible cfg s =
      if s.mFrameTimes.length < 2 then none
      else if pairHasSentinel s.mFrameTimes then some (none, s)
      else if burstRejected s then some (none, s)
      else if |candidateRate s - s.mLastReportedRefreshRate| > 1 then
        some (some (candidateRate s), { s with mLastReportedRefreshRate := candidateRate s })
      else
        some (some s.mLastReportedRefreshRate, s) := by
  unfold calculateRefreshRateIfPossible
  rw [h]

lemma calc_success_eq (cfg : Config) (s : LayerInfoV2)
    (hdata : hasEnoughDataForHeuristic cfg s = some true)
    (hlen : ¬ s.mFrameTimes.length < 2)
    (hsent : pairHasSentinel s.mFrameTimes = false)
    (hburst : burstRejected s = false) :
    calculateRefreshRateIfPossible cfg s =
      if |candidateRate s - s.mLastReportedRefreshRate| > 1 then
        some (some (candidateRate s), { s with mLastReportedRefreshRate := candidateRate s })
      else
        some (some s.mLastReportedRefreshRate, s) := by
  rw [calc_eq_of_data_true cfg s hdata, if_neg hlen, if_neg (by simp [hsent]),
    if_neg (by simp [hburst])]

/-- Inversion for `calculateRefreshRateIfPossible`: the shape of the result
and the relation between output state and input state. -/
lemma calc_cases (cfg : Config) (s : LayerInfoV2) (o : Option ℚ) (s1 : LayerInfoV2)
    (h : calculateRefreshRateIfPossible cfg s = some (o, s1)) :
    (o = none → s1 = s) ∧
    (∀ r : ℚ, o = some r →
      hasEnoughDataForHeuristic cfg s = some true ∧
      ¬ s.mFrameTimes.length < 2 ∧
      pairHasSentinel s.mFrameTimes = false ∧
      burstRejected s = false ∧
      s1.mFrameTimes = s.mFrameTimes ∧
      s1.mHighRefreshRatePeriod = s.mHighRefreshRatePeriod ∧
      r = s1.mLastReportedRefreshRate ∧
      s1 = { s with mLastReportedRefreshRate := s1.mLastReportedRefreshRate }) := by
  rcases hdata : hasEnoughDataForHeuristic cfg s with _ | b
  · rw [calc_eq_of_data_none cfg s hdata] at h
    simp at h
  · cases b with
    | false =>
      rw [calc_eq_of_data_false cfg s hdata] at h
      simp only [Option.some.injEq, Prod.mk.injEq] at h
      obtain ⟨ho, hs⟩ := h
      subst ho; subst hs
      exact ⟨fun _ => rfl, fun r hr => by simp at hr⟩
    | true =>
      rw [calc_eq_of_data_true cfg s hdata] at h
      by_cases hlen : s.mFrameTimes.length < 2
      · rw [if_pos hlen] at h; simp at h
      · rw [if_neg hlen] at h
        by_cases hsent : pairHasSentinel s.mFrameTimes = true
        · rw [if_pos hsent] at h
          simp only [Option.some.injEq, Prod.mk.injEq] at h
          obtain ⟨ho, hs⟩ := h
          subst ho; subst hs
          exact ⟨fun _ => rfl, fun r hr => by simp at hr⟩
        · rw [if_neg hsent] at h
          by_cases hburst : burstRejected s = true
          · rw [if_pos hburst] at h
            simp only [Option.some.injEq, Prod.mk.injEq] at h
            obtain ⟨ho, hs⟩ := h
            subst ho; subst hs
            exact ⟨fun _ => rfl, fun r hr => by simp at hr⟩
          · rw [if_neg hburst] at h
            by_cases hm : |candidateRate s - s.mLastReportedRefreshRate| > 1
            · rw [if_pos hm] at h
              simp only [Option.some.injEq, Prod.mk.injEq] at h
              obtain ⟨ho, hs⟩ := h
              subst ho; subst hs
              refine ⟨fun hn => by simp at hn, fun r hr => ?_⟩
              obtain rfl : r = candidateRate s := by simpa using hr.symm
              exact ⟨rfl, hlen, by simpa using hsent,
                by simpa using hburst, rfl, rfl, rfl, rfl⟩
            · rw [if_neg hm] at h
              simp only [Option.some.injEq, Prod.mk.injEq] at h
              obtain ⟨ho, hs⟩ := h
              subst ho; subst hs
              refine ⟨fun hn => by simp at hn, fun r hr => ?_⟩
              obtain rfl : r = s.mLastReportedRefreshRate := by simpa using hr.symm
              exact ⟨rfl, hlen, by simpa using hsent,
                by simpa using hburst, rfl, rfl, rfl, rfl⟩


lemma two_le_length_of_enough (cfg : Config) (s : LayerInfoV2)
    (hcap : 2 ≤ cfg.HISTORY_SIZE) (ht : 0 < cfg.HISTORY_TIME)
    (h : hasEnoughDataForHeuristic cfg s = some true) :
    2 ≤ s.mFrameTimes.length := by
  unfold hasEnoughDataForHeuristic at h
  by_cases hl : s.mFrameTimes.length < cfg.HISTORY_SIZE
  · rw [if_pos hl] at h
    rcases hfl : s.mFrameTimes with _ | ⟨x, _ | ⟨y, t⟩⟩
    · rw [hfl] at h
      simp at h
    · rw [hfl] at h
      simp only [List.getLast?_singleton, List.head?_cons] at h
      rw [sub_self, if_pos ht] at h
      simp at h
    · simp only [List.length_cons]
      omega
  · omega

lemma frameDeltas_length (hi : Int) (l : List FrameTimeData) :
    (frameDeltas hi l).length = l.length - 1 := by
  induction l with
  | nil => simp [frameDeltas]
  | cons x xs ih =>
    cases xs with
    | nil => simp [frameDeltas]
    | cons y t =>
      simp only [frameDeltas, List.length_cons] at ih ⊢
      omega

lemma pairHasSentinel_of_getElem (l : List FrameTimeData) (i : Nat)
    (a b : FrameTimeData) (ha : l[i]? = some a) (hb : l[i + 1]? = some b)
    (hz : a.presetTime = 0 ∨ b.presetTime = 0) :
    pairHasSentinel l = true := by
  induction l generalizing i with
  | nil => simp at ha
  | cons x xs ih =>
    cases xs with
    | nil =>
      rw [List.getElem?_cons_succ] at hb
      simp at hb
    | cons y t =>
      rcases i with _ | j
      · rw [List.getElem?_cons_zero] at ha
        rw [List.getElem?_cons_succ, List.getElem?_cons_zero] at hb
        obtain rfl : x = a := by simpa using ha
        obtain rfl : y = b := by simpa using hb
        simp only [pairHasSentinel, Bool.or_eq_true, beq_iff_eq]
        tauto
      · rw [List.getElem?_cons_succ] at ha hb
        simp only [pairHasSentinel, Bool.or_eq_true, beq_iff_eq]
        exact Or.inr (ih j ha hb)

lemma burstRejected_iff (s : LayerInfoV2) :
    burstRejected s = true ↔
      ∃ d ∈ frameDeltas s.mHighRefreshRatePeriod s.mFrameTimes,
        |(d : ℚ) - averageFrameTime s| > 2 * averageFrameTime s := by
  simp [burstRejected, List.any_eq_true]

/-! ### The resolver (claims C1, C8, C9) -/

/-- Claim C1: for every state and time, the vote resolver returns a
non-Heuristic stored vote unchanged; with a Heuristic stored vote it
returns `{Min, 0}` when the layer is not frequent, `{Heuristic, v}` when
the estimator yields a value `v`, and `{Max, 0}` when the estimator yields
none. -/
theorem getRefreshRate_resolves_vote (cfg : Config) (s : LayerInfoV2) (now : Int) :
    (s.mLayerVote.type ≠ LayerVoteType.Heuristic →
      getRefreshRate cfg s now = some ((s.mLayerVote.type, s.mLayerVote.fps), s)) ∧
    (s.mLayerVote.type = LayerVoteType.Heuristic →
      isFrequent cfg s now = some false →
      getRefreshRate cfg s now = some ((LayerVoteType.Min, 0), s)) ∧
    (∀ v s1, s.mLayerVote.type = LayerVoteType.Heuristic →
      isFrequent cfg s now = some true →
      calculateRefreshRateIfPossible cfg s = some (some v, s1) →
      getRefreshRate cfg s now = some ((LayerVoteType.Heuristic, v), s1)) ∧
    (∀ s1, s.mLayerVote.type = LayerVoteType.Heuristic →
      isFrequent cfg s now = some true →
      calculateRefreshRateIfPossible cfg s = some (none, s1) →
      getRefreshRate cfg s now = some ((LayerVoteType.Max, 0), s1)) := by
  refine ⟨fun h => ?_, fun h hf => ?_, fun v s1 h hf hc => ?_, fun s1 h hf hc => ?_⟩
  · simp [getRefreshRate, h]
  · simp [getRefreshRate, h, hf]
  · simp [getRefreshRate, h, hf, hc]
  · simp [getRefreshRate, h, hf, hc]

/-- The estimator succeeds on the two-sample state `sA` and reports the
candidate rate (used by several witnesses below). -/
lemma calcA_eq : calculateRefreshRateIfPossible cfgA sA =
    some (some (candidateRate sA), { sA with mLastReportedRefreshRate := candidateRate sA }) := by
  have hm : |candidateRate sA - sA.mLastReportedRefreshRate| > 1 := by
    norm_num [candidateRate, averageFrameTime, frameDeltas, sA]
  rw [calc_success_eq cfgA sA rfl (by decide) rfl
    (by norm_num [burstRejected, frameDeltas, averageFrameTime, sA]), if_pos hm]

/-- Witness for C1: a concrete explicit-vote state is returned unchanged,
and a concrete Heuristic state takes the `{Heuristic, v}` branch. -/
theorem getRefreshRate_resolves_vote_witness :
    getRefreshRate cfgA sB 0 = some ((LayerVoteType.Min, 5), sB) ∧
    getRefreshRate cfgA sA 0 =
      some ((LayerVoteType.Heuristic, candidateRate sA),
        { sA with mLastReportedRefreshRate := candidateRate sA }) :=
  ⟨(getRefreshRate_resolves_vote cfgA sB 0).1 (by decide),
    (getRefreshRate_resolves_vote cfgA sA 0).2.2.1 (candidateRate sA) _ rfl rfl calcA_eq⟩

/-- Claim C9: the claimed in-bounds safety fails on the code.  The empty
History is reachable with a Heuristic vote (a freshly constructed
estimator), `isFrequent` returns true on it (too few samples), and
`hasEnoughDataForHeuristic` then evaluates `mFrameTimes.back()` and
`mFrameTimes.front()` on the empty deque: the embedding reaches the `none`
branch, marking the out-of-bounds access of the C++. -/
theorem empty_history_heuristic_out_of_bounds :
    isFrequent ⟨10, 3, 100, 5⟩ (LayerInfoV2.init 50 LayerVoteType.Heuristic) 0 = some true ∧
    hasEnoughDataForHeuristic ⟨10, 3, 100, 5⟩ (LayerInfoV2.init 50 LayerVoteType.Heuristic) = none ∧
    getRefreshRate ⟨10, 3, 100, 5⟩ (LayerInfoV2.init 50 LayerVoteType.Heuristic) 0 = none :=
  ⟨rfl, rfl, rfl⟩

/-- Claim C8: the vote resolver leaves the History and the stored vote
unchanged — the output state differs from the input state at most in
`mLastReportedRefreshRate` — and whenever the estimator returns no value
it changes no state at all. -/
theorem getRefreshRate_state_effects (cfg : Config) (s : LayerInfoV2) (now : Int) :
    (∀ res s1, getRefreshRate cfg s now = some (res, s1) →
      s1.mFrameTimes = s.mFrameTimes ∧ s1.mLayerVote = s.mLayerVote ∧
      s1 = { s with mLastReportedRefreshRate := s1.mLastReportedRefreshRate }) ∧
    (∀ s1, calculateRefreshRateIfPossible cfg s = some (none, s1) → s1 = s) := by
  constructor
  · intro res s1 h
    unfold getRefreshRate at h
    by_cases hv : s.mLayerVote.type = LayerVoteType.Heuristic
    · rw [if_neg (not_not_intro hv)] at h
      rcases hf : isFrequent cfg s now with _ | b
      · rw [hf] at h; simp at h
      · rw [hf] at h
        cases b with
        | false =>
          simp only [Option.some.injEq, Prod.mk.injEq] at h
          obtain ⟨-, rfl⟩ := h
          exact ⟨rfl, rfl, rfl⟩
        | true =>
          rcases hc : calculateRefreshRateIfPossible cfg s with _ | ⟨o, s2⟩
          · rw [hc] at h; simp at h
          · rw [hc] at h
            cases o with
            | none =>
              simp only [Option.some.injEq, Prod.mk.injEq] at h
              obtain ⟨-, rfl⟩ := h
              obtain rfl := (calc_cases cfg s none s2 hc).1 rfl
              exact ⟨rfl, rfl, rfl⟩
            | some v =>
              simp only [Option.some.injEq, Prod.mk.injEq] at h
              obtain ⟨-, rfl⟩ := h
              obtain ⟨-, -, -, -, hfr, -, -, heta⟩ :=
                (calc_cases cfg s (some v) s2 hc).2 v rfl
              exact ⟨hfr, by rw [heta], heta⟩
    · rw [if_pos hv] at h
      simp only [Option.some.injEq, Prod.mk.injEq] at h
      obtain ⟨-, rfl⟩ := h
      exact ⟨rfl, rfl, rfl⟩
  · intro s1 h
    exact (calc_cases cfg s none s1 h).1 rfl

/-- Witness for C8: the explicit-vote state `sB` is returned unchanged by
the resolver, and the sentinel state `sSent` is unchanged by a failed
estimation. -/
theorem getRefreshRate_state_effects_witness :
    (sB.mFrameTimes = sB.mFrameTimes ∧ sB.mLayerVote = sB.mLayerVote ∧
      sB = { sB with mLastReportedRefreshRate := sB.mLastReportedRefreshRate }) ∧
    sSent = sSent :=
  ⟨(getRefreshRate_state_effects cfgA sB 0).1 (LayerVoteType.Min, 5) sB rfl,
    (getRefreshRate_state_effects cfgA sSent 0).2 sSent rfl⟩

/-! ### The cadence estimator (claims C4, C5, C6, C7, C10) -/

/-- Claim C4: when the estimator passes the enough-data, sentinel and
burst-rejection checks, it assigns `mLastReportedRefreshRate` the candidate
rate exactly when the candidate differs from the stored rate by more than
the 1 Hz margin, and it returns the (possibly just updated) stored rate,
never the candidate itself. -/
theorem hysteresis_update_iff_margin (cfg : Config) (s : LayerInfoV2)
    (hdata : hasEnoughDataForHeuristic cfg s = some true)
    (hlen : ¬ s.mFrameTimes.length < 2)
    (hsent : pairHasSentinel s.mFrameTimes = false)
    (hburst : burstRejected s = false) :
    calculateRefreshRateIfPossible cfg s =
      some
        (some (if |candidateRate s - s.mLastReportedRefreshRate| > 1
               then candidateRate s else s.mLastReportedRefreshRate),
         { s with mLastReportedRefreshRate :=
            if |candidateRate s - s.mLastReportedRefreshRate| > 1
            then candidateRate s else s.mLastReportedRefreshRate }) := by
  rw [calc_success_eq cfg s hdata hlen hsent hburst]
  by_cases hm : |candidateRate s - s.mLastReportedRefreshRate| > 1
  · simp only [if_pos hm]
  · simp only [if_neg hm]

/-- Witness for C4: on the two-sample state `sA` all three checks pass, the
candidate exceeds the margin and is therefore both stored and returned. -/
theorem hysteresis_update_iff_margin_witness :
    burstRejected sA = false ∧
    calculateRefreshRateIfPossible cfgA sA =
      some (some (candidateRate sA),
        { sA with mLastReportedRefreshRate := candidateRate sA }) := by
  have hb : burstRejected sA = false := by
    norm_num [burstRejected, frameDeltas, averageFrameTime, sA]
  have hm : |candidateRate sA - sA.mLastReportedRefreshRate| > 1 := by
    norm_num [candidateRate, averageFrameTime, frameDeltas, sA]
  have h := hysteresis_update_iff_margin cfgA sA rfl (by decide) rfl hb
  rw [if_pos hm] at h
  exact ⟨hb, h⟩

/-- Claim C5: if the estimator returned a value and is called again on the
unchanged History with the recomputed candidate within the 1 Hz margin of
the previously reported rate, the second call returns the same value (and
changes nothing). -/
theorem hysteresis_idempotent (cfg : Config) (s : LayerInfoV2) (r : ℚ)
    (s1 : LayerInfoV2)
    (h1 : calculateRefreshRateIfPossible cfg s = some (some r, s1))
    (hmargin : |candidateRate s1 - r| ≤ 1) :
    calculateRefreshRateIfPossible cfg s1 = some (some r, s1) := by
  obtain ⟨-, hinv⟩ := calc_cases cfg s (some r) s1 h1
  obtain ⟨hdata, hlen, hsent, hburst, hfr, hhi, hr, -⟩ := hinv r rfl
  have hdata1 : hasEnoughDataForHeuristic cfg s1 = some true :=
    (hasEnoughData_congr cfg s1 s hfr).trans hdata
  have hlen1 : ¬ s1.mFrameTimes.length < 2 := by rw [hfr]; exact hlen
  have hsent1 : pairHasSentinel s1.mFrameTimes = false := by rw [hfr]; exact hsent
  have hburst1 : burstRejected s1 = false :=
    (burstRejected_congr s1 s hfr hhi).trans hburst
  rw [calc_success_eq cfg s1 hdata1 hlen1 hsent1 hburst1,
    if_neg (by rw [← hr]; exact not_lt.mpr hmargin), ← hr]

/-- Witness for C5: after the successful first call on `sA`, the recomputed
candidate equals the reported rate, so the second call reports the same
value. -/
theorem hysteresis_idempotent_witness :
    calculateRefreshRateIfPossible cfgA
        { sA with mLastReportedRefreshRate := candidateRate sA } =
      some (some (candidateRate sA),
        { sA with mLastReportedRefreshRate := candidateRate sA }) := by
  refine hysteresis_idempotent cfgA sA (candidateRate sA) _ calcA_eq ?_
  rw [candidateRate_congr { sA with mLastReportedRefreshRate := candidateRate sA } sA rfl rfl]
  simp

/-- Claim C7: if the History passes the enough-data check and some
consecutive pair of samples carries the sentinel present time `0`, the
estimator returns no value for that call. -/
theorem sentinel_returns_none (cfg : Config) (s : LayerInfoV2)
    (hdata : hasEnoughDataForHeuristic cfg s = some true)
    (i : Nat) (a b : FrameTimeData)
    (ha : s.mFrameTimes[i]? = some a) (hb : s.mFrameTimes[i + 1]? = some b)
    (hz : a.presetTime = 0 ∨ b.presetTime = 0) :
    calculateRefreshRateIfPossible cfg s = some (none, s) := by
  have hp := pairHasSentinel_of_getElem s.mFrameTimes i a b ha hb hz
  have hlen : ¬ s.mFrameTimes.length < 2 := by
    rcases List.getElem?_eq_some.1 hb with ⟨hlt, -⟩
    omega
  rw [calc_eq_of_data_true cfg s hdata, if_neg hlen, if_pos hp]

/-- Witness for C7: on `sSent` the first sample of the first pair has the
sentinel present time and the estimator yields no value. -/
theorem sentinel_returns_none_witness :
    hasEnoughDataForHeuristic cfgA sSent = some true ∧
    calculateRefreshRateIfPossible cfgA sSent = some (none, sSent) :=
  ⟨rfl, sentinel_returns_none cfgA sSent rfl 0 ⟨0, 10⟩ ⟨11, 11⟩ rfl rfl (Or.inl rfl)⟩

/-- Claim C10: with a sane configuration (capacity at least 2, positive
time window), a non-empty History passing the enough-data check has at
least two samples, so the `size - 1` divisor of the average is at least 1
and the consecutive-pair range is non-empty. -/
theorem enough_data_implies_two_samples (cfg : Config) (s : LayerInfoV2)
    (_hne : s.mFrameTimes ≠ [])
    (hcap : 2 ≤ cfg.HISTORY_SIZE) (ht : 0 < cfg.HISTORY_TIME)
    (hdata : hasEnoughDataForHeuristic cfg s = some true) :
    2 ≤ s.mFrameTimes.length ∧ 1 ≤ s.mFrameTimes.length - 1 ∧
      frameDeltas s.mHighRefreshRatePeriod s.mFrameTimes ≠ [] := by
  have h2 := two_le_length_of_enough cfg s hcap ht hdata
  refine ⟨h2, by omega, fun hnil => ?_⟩
  have hlen := frameDeltas_length s.mHighRefreshRatePeriod s.mFrameTimes
  rw [hnil] at hlen
  simp at hlen
  omega

/-- Witness for C10: the two-sample state `sA` under `cfgA`. -/
theorem enough_data_implies_two_samples_witness :
    2 ≤ sA.mFrameTimes.length ∧ 1 ≤ sA.mFrameTimes.length - 1 ∧
      frameDeltas sA.mHighRefreshRatePeriod sA.mFrameTimes ≠ [] :=
  enough_data_implies_two_samples cfgA sA (by decide) (by decide) (by decide) rfl

/-- Claim C6: under the enough-data check and absence of sentinels, the
estimator fails exactly on a burst — it returns no value when some delta
deviates from the average by more than twice the average, and returns a
value when no delta does. -/
theorem burst_rejection_characterization (cfg : Config) (s : LayerInfoV2)
    (hcap : 2 ≤ cfg.HISTORY_SIZE) (ht : 0 < cfg.HISTORY_TIME)
    (hdata : hasEnoughDataForHeuristic cfg s = some true)
    (hsent : pairHasSentinel s.mFrameTimes = false) :
    ((∃ d ∈ frameDeltas s.mHighRefreshRatePeriod s.mFrameTimes,
        |(d : ℚ) - averageFrameTime s| > 2 * averageFrameTime s) →
      calculateRefreshRateIfPossible cfg s = some (none, s)) ∧
    ((∀ d ∈ frameDeltas s.mHighRefreshRatePeriod s.mFrameTimes,
        ¬ |(d : ℚ) - averageFrameTime s| > 2 * averageFrameTime s) →
      ∃ r s1, calculateRefreshRateIfPossible cfg s = some (some r, s1)) := by
  have hlen : ¬ s.mFrameTimes.length < 2 := by
    have := two_le_length_of_enough cfg s hcap ht hdata
    omega
  constructor
  · intro hex
    rw [calc_eq_of_data_true cfg s hdata, if_neg hlen, if_neg (by simp [hsent]),
      if_pos ((burstRejected_iff s).2 hex)]
  · intro hall
    have hb : burstRejected s = false := by
      cases hbb : burstRejected s
      · rfl
      · obtain ⟨d, hd, hgt⟩ := (burstRejected_iff s).1 hbb
        exact ((hall d hd) hgt).elim
    rw [calc_success_eq cfg s hdata hlen hsent hb]
    by_cases hm : |candidateRate s - s.mLastReportedRefreshRate| > 1
    · rw [if_pos hm]; exact ⟨_, _, rfl⟩
    · rw [if_neg hm]; exact ⟨_, _, rfl⟩

/-- Witness for C6: `sC6` has deltas `[1, 1, 1, 20]` with average `23/4`;
the delta `20` deviates by `57/4 > 46/4`, so the estimator rejects it. -/
theorem burst_rejection_characterization_witness :
    hasEnoughDataForHeuristic cfgC sC6 = some true ∧
    calculateRefreshRateIfPossible cfgC sC6 = some (none, sC6) := by
  have havg : averageFrameTime sC6 = 23 / 4 := by
    norm_num [averageFrameTime, frameDeltas, sC6]
  refine ⟨rfl, (burst_rejection_characterization cfgC sC6 (by decide) (by decide) rfl rfl).1 ?_⟩
  refine ⟨20, by decide, ?_⟩
  rw [havg, abs_of_nonneg (by norm_num)]
  norm_num

/-! ### The history tracker (claims C2, C3) -/

lemma setLastPresentTime_frameTimes (cfg : Config) (s : LayerInfoV2) (lp now : Int) :
    (setLastPresentTime cfg s lp now).mFrameTimes =
      if cfg.HISTORY_SIZE < s.mFrameTimes.length + 1
      then (s.mFrameTimes ++ [mkFrameTime lp now]).tail
      else s.mFrameTimes ++ [mkFrameTime lp now] := by
  simp [setLastPresentTime]

/-- The buffer after a run is the suffix of capacity `HISTORY_SIZE` of the
initial buffer followed by all ingested samples. -/
lemma runEvents_frameTimes (cfg : Config) (evs : List (Int × Int)) :
    ∀ s : LayerInfoV2, s.mFrameTimes.length ≤ cfg.HISTORY_SIZE →
      (runEvents cfg s evs).mFrameTimes =
        (s.mFrameTimes ++ evs.map fun e => mkFrameTime e.1 e.2).drop
          (s.mFrameTimes.length + evs.length - cfg.HISTORY_SIZE) := by
  induction evs with
  | nil =>
    intro s hs
    simp [runEvents, Nat.sub_eq_zero_of_le hs]
  | cons e rest ih =>
    intro s hs
    have hstep : runEvents cfg s (e :: rest) =
        runEvents cfg (setLastPresentTime cfg s e.1 e.2) rest := rfl
    rw [hstep]
    simp only [List.map_cons, List.length_cons]
    by_cases hfull : cfg.HISTORY_SIZE < s.mFrameTimes.length + 1
    · have hlen : s.mFrameTimes.length = cfg.HISTORY_SIZE := by omega
      have hft : (setLastPresentTime cfg s e.1 e.2).mFrameTimes =
          (s.mFrameTimes ++ [mkFrameTime e.1 e.2]).tail := by
        rw [setLastPresentTime_frameTimes, if_pos hfull]
      have hlen2 : (setLastPresentTime cfg s e.1 e.2).mFrameTimes.length ≤
          cfg.HISTORY_SIZE := by
        rw [hft, List.length_tail, List.length_append]
        simp
        omega
      rw [ih _ hlen2, hft]
      have hA : s.mFrameTimes ++ mkFrameTime e.1 e.2 ::
          (rest.map fun x => mkFrameTime x.1 x.2) =
          (s.mFrameTimes ++ [mkFrameTime e.1 e.2]) ++
            (rest.map fun x => mkFrameTime x.1 x.2) := by
        simp
      rw [hA]
      have hT : (s.mFrameTimes ++ [mkFrameTime e.1 e.2]).tail ++
          (rest.map fun x => mkFrameTime x.1 x.2) =
          ((s.mFrameTimes ++ [mkFrameTime e.1 e.2]) ++
            (rest.map fun x => mkFrameTime x.1 x.2)).drop 1 := by
        rw [List.drop_append_of_le_length (by simp), List.drop_one]
      rw [hT, List.drop_drop]
      congr 1
      rw [List.length_tail, List.length_append]
      simp
      omega
    · have hft : (setLastPresentTime cfg s e.1 e.2).mFrameTimes =
          s.mFrameTimes ++ [mkFrameTime e.1 e.2] := by
        rw [setLastPresentTime_frameTimes, if_neg hfull]
      have hlen2 : (setLastPresentTime cfg s e.1 e.2).mFrameTimes.length ≤
          cfg.HISTORY_SIZE := by
        rw [hft, List.length_append]
        simp
        omega
      rw [ih _ hlen2, hft]
      have hA : s.mFrameTimes ++ mkFrameTime e.1 e.2 ::
          (rest.map fun x => mkFrameTime x.1 x.2) =
          (s.mFrameTimes ++ [mkFrameTime e.1 e.2]) ++
            (rest.map fun x => mkFrameTime x.1 x.2) := by
        simp
      rw [hA]
      congr 1
      rw [List.length_append]
      simp
      omega

/-- Runs from a freshly constructed estimator: the buffer is the suffix of
capacity `HISTORY_SIZE` of all ingested samples. -/
lemma runEvents_init_frameTimes (cfg : Config) (hi : Int) (dv : LayerVoteType)
    (evs : List (Int × Int)) :
    (runEvents cfg (LayerInfoV2.init hi dv) evs).mFrameTimes =
      (evs.map fun e => mkFrameTime e.1 e.2).drop
        (evs.length - cfg.HISTORY_SIZE) := by
  have h := runEvents_frameTimes cfg evs (LayerInfoV2.init hi dv)
    (by simp [LayerInfoV2.init])
  simpa [LayerInfoV2.init] using h

lemma mkFrameTime_queue_of_le (lp now : Int) (h : lp ≤ now) :
    (mkFrameTime lp now).queueTime = max now 0 := by
  simp only [mkFrameTime]
  rcases le_total lp 0 with h0 | h0
  · rw [max_eq_right h0, max_comm]
  · rw [max_eq_left h0, max_eq_right h, max_eq_left (h0.trans h)]

/-- Claim C3: starting from an empty History, `N` ingestions leave
`min N HISTORY_SIZE` samples, and an ingestion into a full History pops
exactly the oldest sample while appending the new one at the back (FIFO). -/
theorem history_bounded_fifo (cfg : Config) (hi : Int) (dv : LayerVoteType)
    (evs : List (Int × Int)) :
    (runEvents cfg (LayerInfoV2.init hi dv) evs).mFrameTimes.length =
      min evs.length cfg.HISTORY_SIZE ∧
    (∀ (s : LayerInfoV2) (lp now : Int),
      s.mFrameTimes.length = cfg.HISTORY_SIZE → 1 ≤ cfg.HISTORY_SIZE →
      (setLastPresentTime cfg s lp now).mFrameTimes =
        s.mFrameTimes.tail ++ [mkFrameTime lp now]) := by
  constructor
  · rw [runEvents_init_frameTimes]
    rw [List.length_drop, List.length_map]
    omega
  · intro s lp now hfull hcap
    rw [setLastPresentTime_frameTimes, if_pos (by omega),
      List.tail_append_singleton_of_ne_nil (List.length_pos.mp (by omega))]

/-- Witness for C3: seven ingestions into capacity 5 leave 5 samples, and
an ingestion into the full five-sample state `sC6` pops its oldest
sample. -/
theorem history_bounded_fifo_witness :
    (runEvents cfgC (LayerInfoV2.init 1 LayerVoteType.Heuristic)
        [(1, 1), (2, 2), (3, 3), (4, 4), (5, 5), (6, 6), (7, 7)]).mFrameTimes.length =
      min [(1, 1), (2, 2), (3, 3), (4, 4), (5, 5), (6, 6), (7, 7)].length
        cfgC.HISTORY_SIZE ∧
    (setLastPresentTime cfgC sC6 40 40).mFrameTimes =
      sC6.mFrameTimes.tail ++ [mkFrameTime 40 40] :=
  ⟨(history_bounded_fifo cfgC 1 LayerVoteType.Heuristic
      [(1, 1), (2, 2), (3, 3), (4, 4), (5, 5), (6, 6), (7, 7)]).1,
    (history_bounded_fifo cfgC 1 LayerVoteType.Heuristic []).2 sC6 40 40 rfl (by decide)⟩

/-- Claim C2 counterexample: the claim admits arbitrary present times, but
feeding `(lastPresentTime, now)` events `(1000, 5)` then `(0, 6)` — with
`now` values non-decreasing — produces queue times `[1000, 6]`, which
decrease: `queueTime = max(presentTime, now)` is dragged up by a large
present time. -/
theorem queueTime_monotone_cex :
    List.Chain' (· ≤ ·) ([((1000 : Int), (5 : Int)), (0, 6)].map Prod.snd) ∧
    ¬ List.Chain' (· ≤ ·)
      ((runEvents ⟨3, 3, 100, 5⟩ (LayerInfoV2.init 0 LayerVoteType.Heuristic)
          [(1000, 5), (0, 6)]).mFrameTimes.map FrameTimeData.queueTime) := by
  constructor
  · simp [List.chain'_cons]
  · have hrun : (runEvents ⟨3, 3, 100, 5⟩ (LayerInfoV2.init 0 LayerVoteType.Heuristic)
        [(1000, 5), (0, 6)]).mFrameTimes.map FrameTimeData.queueTime =
        [1000, 6] := rfl
    rw [hrun]
    simp [List.chain'_cons]

/-- Claim C2 (amended): for ingestion sequences with non-decreasing `now`
values in which, additionally, every event has `lastPresentTime ≤ now`
(presentation timestamps do not lie in the future), the stored queue times
are non-decreasing oldest to newest. -/
theorem queueTime_monotone_of_present_le_now (cfg : Config) (hi : Int)
    (dv : LayerVoteType) (evs : List (Int × Int))
    (hmono : List.Chain' (· ≤ ·) (evs.map Prod.snd))
    (hle : ∀ e ∈ evs, e.1 ≤ e.2) :
    List.Chain' (· ≤ ·)
      ((runEvents cfg (LayerInfoV2.init hi dv) evs).mFrameTimes.map
        FrameTimeData.queueTime) := by
  rw [runEvents_init_frameTimes, List.map_drop]
  refine List.Chain'.drop ?_ _
  rw [List.map_map]
  have hmap : evs.map (FrameTimeData.queueTime ∘ fun e => mkFrameTime e.1 e.2) =
      evs.map fun e => max e.2 0 :=
    List.map_congr_left fun e he => mkFrameTime_queue_of_le e.1 e.2 (hle e he)
  rw [hmap, List.chain'_map]
  rw [List.chain'_map] at hmono
  exact List.Chain'.imp (fun a b hab => max_le_max hab le_rfl) hmono

/-- Witness for the amended C2: two events with increasing `now` and past
present times give non-decreasing queue times. -/
theorem queueTime_monotone_witness :
    List.Chain' (· ≤ ·)
      ((runEvents cfgA (LayerInfoV2.init 1 LayerVoteType.Heuristic)
          [(1, 2), (2, 3)]).mFrameTimes.map FrameTimeData.queueTime) :=
  queueTime_monotone_of_present_le_now cfgA 1 LayerVoteType.Heuristic [(1, 2), (2, 3)]
    (by simp [List.chain'_cons]) (by decide)
